import Mathlib

/-!
Verification of the MTP responder core described by the repository's
specification against its source. The repository ships the declaration
header `src/media/mtp/MtpServer.h`; the handler bodies (`MtpServer.cpp`)
are not part of the source tree, so the operation semantics below are
modelled from the specification's words, while the state layout (the
private instance members of `MtpServer`) and the inline body of
`addStorage` come directly from the header.
-/

namespace MtpModel

/-- MTP response codes used by the modelled operations (values per the
MTP code space named in the spec's dispatch table). -/
inductive ResponseCode where
  | OK
  | GeneralError
  | SessionNotOpen
  | InvalidStorageID
  | InvalidObjectHandle
  | StoreFull
  | NoValidObjectInfo
  | SessionAlreadyOpen
  | PartialDeletion
  | InvalidParentObject
  | InvalidParameter
  | OperationNotSupported
  deriving DecidableEq, Repr

/-- A mounted storage unit: `{storageId, rootPath, free/total capacity}`
(spec section 3, StorageUnit). Mirrors `MtpStorage` as the registry sees it. -/
structure MtpStorage where
  id : Nat
  rootPath : String
  maxCapacity : Nat
  freeSpace : Nat
  deriving DecidableEq, Repr

/-- An object record held by the Database Adapter: handle, location,
format code, declared size, resolved path and the file's bytes
(spec section 3, ObjectInfo / ObjectHandle). -/
structure Obj where
  handle : Nat
  storageID : Nat
  parent : Nat
  format : Nat
  size : Nat
  path : String
  contents : List Nat
  deriving DecidableEq, Repr

/-- The single-slot in-flight send record
`{pendingHandle, pendingFormat, destinationFilePath, expectedSize}`
(spec section 3, In-flight Send State), mirroring the header fields
`mSendObjectHandle`, `mSendObjectFormat`, `mSendObjectFilePath`,
`mSendObjectFileSize`, together with the storage/parent metadata the
database needs to finalize the record. -/
structure PendingSend where
  handle : Nat
  format : Nat
  filePath : String
  fileSize : Nat
  storageID : Nat
  parent : Nat
  deriving DecidableEq, Repr

/-- Server state: the non-static instance members of `MtpServer`
(header lines 47-63): current session ID, session-open flag, the storage
list `mStorages`, the database's object records with its next fresh
handle, and the pending-send slot (`none` when no SendObjectInfo is
outstanding). -/
structure State where
  sessionID : Nat
  sessionOpen : Bool
  storages : List MtpStorage
  objects : List Obj
  nextHandle : Nat
  pendingSend : Option PendingSend
  deriving DecidableEq, Repr

/-- External filesystem behaviour the handlers depend on: whether
removing the file behind a given handle fails (spec section 6,
Filesystem collaborator). -/
structure Env where
  unlinkFails : Nat → Bool

/-- A decoded request: operation code plus its parameters / data phase
(spec section 3, Packet; only the operations the claims mention). -/
inductive Request where
  | GetDeviceInfo
  | OpenSession (sessionID : Nat)
  | CloseSession
  | GetStorageIDs
  | GetStorageInfo (storageID : Nat)
  | GetObjectHandles (storageID : Nat)
  | GetObjectInfo (handle : Nat)
  | GetObject (handle : Nat)
  | GetPartialObject (handle offset length : Nat)
  | SendObjectInfo (storageID parent format size : Nat) (name : String)
  | SendObject (data : List Nat)
  | DeleteObject (handle : Nat)
  deriving DecidableEq, Repr

/-- The MTP operation code of a request (the 2-byte code of the Request
packet, spec section 4.1). -/
def Request.opcode : Request → Nat
  | .GetDeviceInfo => 0x1001
  | .OpenSession _ => 0x1002
  | .CloseSession => 0x1003
  | .GetStorageIDs => 0x1004
  | .GetStorageInfo _ => 0x1005
  | .GetObjectHandles _ => 0x1007
  | .GetObjectInfo _ => 0x1008
  | .GetObject _ => 0x1009
  | .GetPartialObject _ _ _ => 0x101B
  | .SendObjectInfo _ _ _ _ _ => 0x100C
  | .SendObject _ => 0x100D
  | .DeleteObject _ => 0x100B

/-- ObjectInfo data returned by GetObjectInfo (spec section 3). -/
structure ObjInfoOut where
  storageID : Nat
  parent : Nat
  format : Nat
  size : Nat
  deriving DecidableEq, Repr

/-- The outcome of one transaction: response code, up to five result
parameters, an optional data-phase payload, and (for GetObjectInfo) the
decoded ObjectInfo dataset. -/
structure Resp where
  code : ResponseCode
  params : List Nat
  data : List Nat
  info : Option ObjInfoOut
  deriving DecidableEq, Repr

/-- A response with only a code, no parameters and no data phase. -/
def respOnly (c : ResponseCode) : Resp :=
  { code := c, params := [], data := [], info := none }

/-- `MtpServer::getStorage`: look up a storage unit by ID in
`mStorages`; null (here `none`) when the ID is unknown (spec 4.3). -/
def getStorage (s : State) (id : Nat) : Option MtpStorage :=
  s.storages.find? (fun st => st.id == id)

/-- `MtpServer::addStorage(MtpStorage*)`, from the header's inline body
`{ mStorages.push(storage); }`: unconditionally append to the list. -/
def addStorage (s : State) (st : MtpStorage) : State :=
  { s with storages := s.storages ++ [st] }

/-- Database lookup of an object record by handle. -/
def findObj (objs : List Obj) (h : Nat) : Option Obj :=
  objs.find? (fun o => o.handle == h)

/-- Whether a handle resolves to an object record. -/
def objectExists (objs : List Obj) (h : Nat) : Bool :=
  (findObj objs h).isSome

/-- Modelled from the spec: `doGetDeviceInfo` (missing `MtpServer.cpp`)
"returns static capability descriptor", success code OK, no
precondition. -/
def doGetDeviceInfo (s : State) : State × Resp :=
  (s, respOnly .OK)

/-- Modelled from the spec: `doOpenSession` (missing `MtpServer.cpp`).
Precondition: no session open; effect: creates session with given ID;
errors SessionAlreadyOpen and InvalidParameter for ID 0 (spec dispatch
table). -/
def doOpenSession (s : State) (id : Nat) : State × Resp :=
  if s.sessionOpen then
    (s, respOnly .SessionAlreadyOpen)
  else if id == 0 then
    (s, respOnly .InvalidParameter)
  else
    ({ s with sessionID := id, sessionOpen := true }, respOnly .OK)

/-- Modelled from the spec: `doCloseSession` (missing `MtpServer.cpp`):
"clears session state". The session-open precondition is enforced by
the dispatcher. -/
def doCloseSession (s : State) : State × Resp :=
  ({ s with sessionOpen := false }, respOnly .OK)

/-- Modelled from the spec: `doGetStorageIDs` (missing `MtpServer.cpp`):
"lists registered storage IDs". -/
def doGetStorageIDs (s : State) : State × Resp :=
  (s, { code := .OK, params := [], data := s.storages.map (fun st => st.id),
        info := none })

/-- Modelled from the spec: `doGetStorageInfo` (missing
`MtpServer.cpp`): returns capacity for a valid storage ID, and
translates the null `getStorage` result into InvalidStorageID
(spec 4.3). -/
def doGetStorageInfo (s : State) (id : Nat) : State × Resp :=
  match getStorage s id with
  | none => (s, respOnly .InvalidStorageID)
  | some st =>
      (s, { code := .OK, params := [st.maxCapacity, st.freeSpace],
            data := [], info := none })

/-- Modelled from the spec: `doGetObjectHandles` (missing
`MtpServer.cpp`): enumerates handles on a storage via the Database
Adapter; unknown storage ID yields InvalidStorageID (spec 4.3). -/
def doGetObjectHandles (s : State) (id : Nat) : State × Resp :=
  match getStorage s id with
  | none => (s, respOnly .InvalidStorageID)
  | some _ =>
      (s, { code := .OK, params := [],
            data := (s.objects.filter (fun o => o.storageID == id)).map
              (fun o => o.handle),
            info := none })

/-- Modelled from the spec: `doGetObjectInfo` (missing
`MtpServer.cpp`): returns the ObjectInfo of a valid handle, else
InvalidObjectHandle. -/
def doGetObjectInfo (s : State) (h : Nat) : State × Resp :=
  match findObj s.objects h with
  | none => (s, respOnly .InvalidObjectHandle)
  | some o =>
      (s, { code := .OK, params := [], data := [],
            info := some { storageID := o.storageID, parent := o.parent,
                           format := o.format, size := o.size } })

/-- Modelled from the spec: `doGetObject` (missing `MtpServer.cpp`):
streams the whole file as the data phase for a valid handle. -/
def doGetObject (s : State) (h : Nat) : State × Resp :=
  match findObj s.objects h with
  | none => (s, respOnly .InvalidObjectHandle)
  | some o =>
      (s, { code := .OK, params := [], data := o.contents, info := none })

/-- Modelled from the spec: `doGetPartialObject` (missing
`MtpServer.cpp`): "clamps the requested length to the remaining bytes
in the object; it never reads past end-of-file and returns the actual
byte count transferred as a result parameter" (spec 4.2 edge
policies). -/
def doGetPartialObject (s : State) (h off len : Nat) : State × Resp :=
  match findObj s.objects h with
  | none => (s, respOnly .InvalidObjectHandle)
  | some o =>
      let payload := (o.contents.drop off).take len
      (s, { code := .OK, params := [payload.length], data := payload,
            info := none })

/-- Destination path allocated for a new object under a storage root. -/
def destPath (st : MtpStorage) (name : String) : String :=
  st.rootPath ++ "/" ++ name

/-- Modelled from the spec: `doSendObjectInfo` (missing
`MtpServer.cpp`): validates storage and parent, checks capacity
(StoreFull), then "records pending-send state, allocates destination
path", overwriting any previous slot (single-slot, last-writer-wins;
spec 4.2 dispatch table and edge policies). The new object's handle is
allocated by the database and returned as a result parameter. -/
def doSendObjectInfo (s : State) (storageID parent format size : Nat)
    (name : String) : State × Resp :=
  match getStorage s storageID with
  | none => (s, respOnly .InvalidStorageID)
  | some st =>
      if parent != 0 && !(objectExists s.objects parent) then
        (s, respOnly .InvalidParentObject)
      else if size > st.freeSpace then
        (s, respOnly .StoreFull)
      else
        let h := s.nextHandle
        ({ s with
            nextHandle := h + 1,
            pendingSend := some { handle := h, format := format,
                                  filePath := destPath st name,
                                  fileSize := size, storageID := storageID,
                                  parent := parent } },
         { code := .OK, params := [h], data := [], info := none })

/-- Modelled from the spec: `doSendObject` (missing `MtpServer.cpp`):
with no pending-send record it returns NoValidObjectInfo and performs
no write; otherwise it reads the data phase, writes the bytes at the
destination path, finalizes the ObjectInfo (format from the pending
slot, size = bytes written) and clears the pending-send state
(spec 4.2 dispatch table). -/
def doSendObject (s : State) (data : List Nat) : State × Resp :=
  match s.pendingSend with
  | none => (s, respOnly .NoValidObjectInfo)
  | some p =>
      ({ s with
          objects := s.objects ++
            [{ handle := p.handle, storageID := p.storageID,
               parent := p.parent, format := p.format, size := data.length,
               path := p.filePath, contents := data }],
          pendingSend := none },
       respOnly .OK)

/-- Sentinel handle value meaning "all objects" for DeleteObject
(spec 4.2 edge policies). -/
def allObjectsHandle : Nat := 0xFFFFFFFF

/-- Whether `h` lies in the parent chain below `anc` (i.e. `h` is `anc`
itself or a descendant of it), following parent links through the
database with bounded fuel. -/
def inChain (objs : List Obj) (anc : Nat) : Nat → Nat → Bool
  | 0, _ => false
  | fuel + 1, h =>
      if h == anc then true
      else
        match findObj objs h with
        | none => false
        | some o => if o.parent == 0 then false
                    else inChain objs anc fuel o.parent

/-- `h` is in the subtree rooted at `anc` (including `anc`). -/
def inSubtree (objs : List Obj) (anc h : Nat) : Bool :=
  inChain objs anc (objs.length + 1) h

/-- Whether an object is targeted by a DeleteObject of handle `h`:
every object for the all-objects sentinel, otherwise the subtree rooted
at `h` (spec 4.2 edge policies). -/
def isTarget (objs : List Obj) (h : Nat) (o : Obj) : Bool :=
  h == allObjectsHandle || inSubtree objs h o.handle

/-- The objects DeleteObject targets. -/
def deleteTargets (objs : List Obj) (h : Nat) : List Obj :=
  objs.filter (isTarget objs h)

/-- The targeted objects whose filesystem removal fails. -/
def failedTargets (env : Env) (objs : List Obj) (h : Nat) : List Obj :=
  (deleteTargets objs h).filter (fun o => env.unlinkFails o.handle)

/-- The objects surviving a bulk delete: the untargeted ones and the
targets whose removal failed. -/
def survivors (env : Env) (objs : List Obj) (h : Nat) : List Obj :=
  objs.filter (fun o => !(isTarget objs h o) || env.unlinkFails o.handle)

/-- Modelled from the spec: `doDeleteObject` (missing `MtpServer.cpp`):
InvalidObjectHandle for an unknown (non-sentinel) handle; otherwise it
attempts to remove every targeted object, continuing past individual
filesystem failures, and answers OK when all were removed or
PartialDeletion carrying the count of still-present objects
(spec 4.2 dispatch table and edge policies, spec section 7 (d)). -/
def doDeleteObject (env : Env) (s : State) (h : Nat) : State × Resp :=
  if h != allObjectsHandle && !(objectExists s.objects h) then
    (s, respOnly .InvalidObjectHandle)
  else if (failedTargets env s.objects h).length == 0 then
    ({ s with objects := survivors env s.objects h }, respOnly .OK)
  else
    ({ s with objects := survivors env s.objects h },
     { code := .PartialDeletion,
       params := [(failedTargets env s.objects h).length],
       data := [], info := none })

/-- Modelled from the spec: `MtpServer::handleRequest` (missing
`MtpServer.cpp`): after decoding, the dispatcher rejects every
operation other than GetDeviceInfo and OpenSession while no session is
open with SessionNotOpen, then dispatches by operation code
(spec sections 3 and 4.2). -/
def handleRequest (env : Env) (s : State) (r : Request) : State × Resp :=
  if !s.sessionOpen && r.opcode != 0x1002 && r.opcode != 0x1001 then
    (s, respOnly .SessionNotOpen)
  else
    match r with
    | .GetDeviceInfo => doGetDeviceInfo s
    | .OpenSession id => doOpenSession s id
    | .CloseSession => doCloseSession s
    | .GetStorageIDs => doGetStorageIDs s
    | .GetStorageInfo id => doGetStorageInfo s id
    | .GetObjectHandles id => doGetObjectHandles s id
    | .GetObjectInfo h => doGetObjectInfo s h
    | .GetObject h => doGetObject s h
    | .GetPartialObject h off len => doGetPartialObject s h off len
    | .SendObjectInfo sid par fmt sz name => doSendObjectInfo s sid par fmt sz name
    | .SendObject data => doSendObject s data
    | .DeleteObject h => doDeleteObject env s h

/-- Two independent `MtpServer` instances. Per the header (lines
33-64) all session and pending-send state are non-static instance
members, so each instance carries its own copy. -/
structure TwoServers where
  first : State
  second : State

/-- Dispatch a request on the first of two server instances: only that
instance's members are touched (C++ member functions act on `this`). -/
def runOnFirst (env : Env) (w : TwoServers) (r : Request) : TwoServers × Resp :=
  let res := handleRequest env w.first r
  ({ first := res.1, second := w.second }, res.2)

/-! Concrete fixtures used by the witness theorems. -/

/-- A filesystem in which every unlink succeeds. -/
def envOK : Env := { unlinkFails := fun _ => false }

/-- A sample storage unit. -/
def stA : MtpStorage :=
  { id := 0x00010001, rootPath := "/sdcard", maxCapacity := 1000,
    freeSpace := 800 }

/-- A freshly started server: no session, one storage, empty store. -/
def sClosed : State :=
  { sessionID := 0, sessionOpen := false, storages := [stA], objects := [],
    nextHandle := 1, pendingSend := none }

/-- A server with an open session and no pending send. -/
def sOpen : State :=
  { sessionID := 1, sessionOpen := true, storages := [stA], objects := [],
    nextHandle := 1, pendingSend := none }

/-- A server holding one four-byte object with handle 5, for the C5
witness. -/
def sPart : State :=
  { sessionID := 1, sessionOpen := true, storages := [stA],
    objects := [{ handle := 5, storageID := 0x00010001, parent := 0,
                  format := 0x3004, size := 4, path := "/sdcard/a.txt",
                  contents := [10, 11, 12, 13] }],
    nextHandle := 6, pendingSend := none }

/-- The object stored in `sPart`. -/
def objA : Obj :=
  { handle := 5, storageID := 0x00010001, parent := 0, format := 0x3004,
    size := 4, path := "/sdcard/a.txt", contents := [10, 11, 12, 13] }

/-- A pending send already recorded, for the C2 witness. -/
def pend0 : PendingSend :=
  { handle := 1, format := 0x3000, filePath := "/sdcard/first.bin",
    fileSize := 9, storageID := 0x00010001, parent := 0 }

/-- Server state with `pend0` pending and next database handle 2. -/
def sPend : State :=
  { sessionID := 1, sessionOpen := true, storages := [stA], objects := [],
    nextHandle := 2, pendingSend := some pend0 }

/-- A filesystem where only the file behind handle 2 fails to unlink,
for the C7 witness. -/
def envFail2 : Env := { unlinkFails := fun n => n == 2 }

/-- A folder object with handle 1. -/
def folderObj : Obj :=
  { handle := 1, storageID := 0x00010001, parent := 0, format := 0x3001,
    size := 0, path := "/sdcard/dir", contents := [] }

/-- A child of `folderObj` whose unlink fails under `envFail2`. -/
def childB : Obj :=
  { handle := 2, storageID := 0x00010001, parent := 1, format := 0x3004,
    size := 1, path := "/sdcard/dir/b", contents := [66] }

/-- A child of `folderObj` whose unlink succeeds under `envFail2`. -/
def childC : Obj :=
  { handle := 3, storageID := 0x00010001, parent := 1, format := 0x3004,
    size := 1, path := "/sdcard/dir/c", contents := [67] }

/-- A server holding the folder with its two children. -/
def sTree : State :=
  { sessionID := 1, sessionOpen := true, storages := [stA],
    objects := [folderObj, childB, childC], nextHandle := 4,
    pendingSend := none }

end MtpModel

namespace MtpModel

/-- C1: while no session is open (`mSessionOpen` false), dispatching any
operation other than GetDeviceInfo (0x1001) and OpenSession (0x1002)
fails with SessionNotOpen and leaves the server state unchanged. -/
theorem c1_session_required (env : Env) (s : State) (r : Request)
    (hOpen : s.sessionOpen = false)
    (hGdi : r.opcode ≠ 0x1001) (hOs : r.opcode ≠ 0x1002) :
    (handleRequest env s r).2.code = ResponseCode.SessionNotOpen ∧
    (handleRequest env s r).1 = s := by
  unfold handleRequest
  simp [hOpen, hGdi, hOs, respOnly]

/-- Witness for C1: CloseSession on a fresh server is rejected with
SessionNotOpen and changes nothing. -/
theorem c1_session_required_witness :
    (handleRequest envOK sClosed Request.CloseSession).2.code =
      ResponseCode.SessionNotOpen ∧
    (handleRequest envOK sClosed Request.CloseSession).1 = sClosed :=
  c1_session_required envOK sClosed Request.CloseSession rfl
    (by decide) (by decide)

/-- C3: with no pending-send record, SendObject answers
NoValidObjectInfo and neither the object store nor any other part of
the server state changes (no filesystem write is modelled). -/
theorem c3_sendObject_no_pending (env : Env) (s : State) (data : List Nat)
    (hOpen : s.sessionOpen = true) (hPend : s.pendingSend = none) :
    (handleRequest env s (Request.SendObject data)).2.code =
      ResponseCode.NoValidObjectInfo ∧
    (handleRequest env s (Request.SendObject data)).1 = s := by
  unfold handleRequest doSendObject
  simp [hOpen, hPend, respOnly, Request.opcode]

/-- Witness for C3: SendObject right after OpenSession. -/
theorem c3_sendObject_no_pending_witness :
    (handleRequest envOK sOpen (Request.SendObject [104, 105])).2.code =
      ResponseCode.NoValidObjectInfo ∧
    (handleRequest envOK sOpen (Request.SendObject [104, 105])).1 = sOpen :=
  c3_sendObject_no_pending envOK sOpen [104, 105] rfl rfl

/-- C4: OpenSession while a session is already open answers
SessionAlreadyOpen; the session ID, the open flag and the whole state
are untouched. -/
theorem c4_openSession_already_open (env : Env) (s : State) (id : Nat)
    (hOpen : s.sessionOpen = true) :
    (handleRequest env s (Request.OpenSession id)).2.code =
      ResponseCode.SessionAlreadyOpen ∧
    (handleRequest env s (Request.OpenSession id)).1.sessionID = s.sessionID ∧
    (handleRequest env s (Request.OpenSession id)).1.sessionOpen = true ∧
    (handleRequest env s (Request.OpenSession id)).1 = s := by
  unfold handleRequest doOpenSession
  simp [hOpen, respOnly, Request.opcode]

/-- Witness for C4: a second OpenSession on an open server. -/
theorem c4_openSession_already_open_witness :
    (handleRequest envOK sOpen (Request.OpenSession 2)).2.code =
      ResponseCode.SessionAlreadyOpen ∧
    (handleRequest envOK sOpen (Request.OpenSession 2)).1.sessionID =
      sOpen.sessionID ∧
    (handleRequest envOK sOpen (Request.OpenSession 2)).1.sessionOpen = true ∧
    (handleRequest envOK sOpen (Request.OpenSession 2)).1 = sOpen :=
  c4_openSession_already_open envOK sOpen 2 rfl

/-- C9: session and pending-send state are per-instance (non-static
members of `MtpServer`), so an operation dispatched on one of two
server instances leaves the other instance's session and pending-send
fields — indeed its whole state — unchanged. -/
theorem c9_instance_isolation (env : Env) (w : TwoServers) (r : Request) :
    ((runOnFirst env w r).1).second.sessionID = w.second.sessionID ∧
    ((runOnFirst env w r).1).second.sessionOpen = w.second.sessionOpen ∧
    ((runOnFirst env w r).1).second.pendingSend = w.second.pendingSend ∧
    ((runOnFirst env w r).1).second = w.second :=
  ⟨rfl, rfl, rfl, rfl⟩

/-- C10: `addStorage` always succeeds and is exactly an append: the new
storage list is the old one with the given storage at the end and no
other field changes; and since no duplicate-ID check is performed, two
calls with equal-ID storages leave two entries with that ID. -/
theorem c10_addStorage_append (s : State) (st st2 : MtpStorage)
    (hid : st2.id = st.id) :
    (addStorage s st).storages = s.storages ++ [st] ∧
    (addStorage s st).sessionID = s.sessionID ∧
    (addStorage s st).sessionOpen = s.sessionOpen ∧
    (addStorage s st).objects = s.objects ∧
    (addStorage s st).pendingSend = s.pendingSend ∧
    2 ≤ ((addStorage (addStorage s st) st2).storages.filter
          (fun x => x.id == st.id)).length := by
  refine ⟨rfl, rfl, rfl, rfl, rfl, ?_⟩
  simp [addStorage, List.filter_append, hid]

/-- C8: for a storage ID matching no registered storage, `getStorage`
returns null (`none`), and GetStorageInfo, GetObjectHandles and
SendObjectInfo each translate that null result into InvalidStorageID. -/
theorem c8_unknown_storage (env : Env) (s : State) (id : Nat)
    (hOpen : s.sessionOpen = true)
    (hUnk : ∀ st ∈ s.storages, st.id ≠ id) :
    getStorage s id = none ∧
    (handleRequest env s (Request.GetStorageInfo id)).2.code =
      ResponseCode.InvalidStorageID ∧
    (handleRequest env s (Request.GetObjectHandles id)).2.code =
      ResponseCode.InvalidStorageID ∧
    ∀ par fmt sz name,
      (handleRequest env s (Request.SendObjectInfo id par fmt sz name)).2.code =
        ResponseCode.InvalidStorageID := by
  have hg : getStorage s id = none := by
    rw [getStorage, List.find?_eq_none]
    intro st hst
    simpa using hUnk st hst
  refine ⟨hg, ?_, ?_, ?_⟩
  · unfold handleRequest doGetStorageInfo
    simp [hOpen, hg, respOnly, Request.opcode]
  · unfold handleRequest doGetObjectHandles
    simp [hOpen, hg, respOnly, Request.opcode]
  · intro par fmt sz name
    unfold handleRequest doSendObjectInfo
    simp [hOpen, hg, respOnly, Request.opcode]

/-- Witness for C8: storage ID 7 is not registered on `sOpen`. -/
theorem c8_unknown_storage_witness :
    getStorage sOpen 7 = none ∧
    (handleRequest envOK sOpen (Request.GetStorageInfo 7)).2.code =
      ResponseCode.InvalidStorageID ∧
    (handleRequest envOK sOpen (Request.GetObjectHandles 7)).2.code =
      ResponseCode.InvalidStorageID ∧
    ∀ par fmt sz name,
      (handleRequest envOK sOpen (Request.SendObjectInfo 7 par fmt sz name)).2.code =
        ResponseCode.InvalidStorageID :=
  c8_unknown_storage envOK sOpen 7 rfl (by decide)

/-- C5: GetPartialObject on a valid handle returns exactly the slice of
the file from the given offset, of length min(requested length,
object size - offset); the transfer never extends past end-of-file and
the actual transferred count is the response's result parameter. -/
theorem c5_getPartialObject_clamps (env : Env) (s : State)
    (h off len : Nat) (o : Obj)
    (hOpen : s.sessionOpen = true)
    (hFind : findObj s.objects h = some o)
    (hSize : o.size = o.contents.length) :
    (handleRequest env s (Request.GetPartialObject h off len)).2.code =
      ResponseCode.OK ∧
    (handleRequest env s (Request.GetPartialObject h off len)).2.data =
      (o.contents.drop off).take len ∧
    (handleRequest env s (Request.GetPartialObject h off len)).2.data.length =
      min len (o.size - off) ∧
    (handleRequest env s (Request.GetPartialObject h off len)).2.params =
      [min len (o.size - off)] ∧
    (handleRequest env s (Request.GetPartialObject h off len)).2.data.length ≤
      o.size - off ∧
    (handleRequest env s (Request.GetPartialObject h off len)).1 = s := by
  unfold handleRequest doGetPartialObject
  simp [hOpen, hFind, hSize, Request.opcode]

/-- Witness for C5: reading 100 bytes from offset 2 of a 4-byte object
transfers the 2 bytes up to end-of-file and reports count 2. -/
theorem c5_getPartialObject_clamps_witness :
    (handleRequest envOK sPart (Request.GetPartialObject 5 2 100)).2.code =
      ResponseCode.OK ∧
    (handleRequest envOK sPart (Request.GetPartialObject 5 2 100)).2.data =
      (objA.contents.drop 2).take 100 ∧
    (handleRequest envOK sPart (Request.GetPartialObject 5 2 100)).2.data.length =
      min 100 (objA.size - 2) ∧
    (handleRequest envOK sPart (Request.GetPartialObject 5 2 100)).2.params =
      [min 100 (objA.size - 2)] ∧
    (handleRequest envOK sPart (Request.GetPartialObject 5 2 100)).2.data.length ≤
      objA.size - 2 ∧
    (handleRequest envOK sPart (Request.GetPartialObject 5 2 100)).1 = sPart :=
  c5_getPartialObject_clamps envOK sPart 5 2 100 objA rfl (by decide) rfl

/-- C2: on a state that already has a pending send `p0`, a second
successful SendObjectInfo replaces the whole pending-send slot —
handle, format, destination path, expected size (and location
metadata) — with values derived only from the second call, and a
subsequent SendObject commits exactly the second call's object. -/
theorem c2_sendObjectInfo_overwrites (env : Env) (s : State)
    (p0 : PendingSend) (st : MtpStorage) (sid par fmt sz : Nat)
    (name : String) (data : List Nat)
    (hOpen : s.sessionOpen = true)
    (_hPend : s.pendingSend = some p0)
    (hSt : getStorage s sid = some st)
    (hPar : par = 0 ∨ objectExists s.objects par = true)
    (hFree : sz ≤ st.freeSpace) :
    (handleRequest env s (Request.SendObjectInfo sid par fmt sz name)).2.code =
      ResponseCode.OK ∧
    (handleRequest env s (Request.SendObjectInfo sid par fmt sz name)).1.pendingSend =
      some { handle := s.nextHandle, format := fmt,
             filePath := destPath st name, fileSize := sz,
             storageID := sid, parent := par } ∧
    (handleRequest env
      (handleRequest env s (Request.SendObjectInfo sid par fmt sz name)).1
      (Request.SendObject data)).2.code = ResponseCode.OK ∧
    (handleRequest env
      (handleRequest env s (Request.SendObjectInfo sid par fmt sz name)).1
      (Request.SendObject data)).1.objects =
      s.objects ++ [{ handle := s.nextHandle, storageID := sid, parent := par,
                      format := fmt, size := data.length,
                      path := destPath st name, contents := data }] := by
  have hcond : (par != 0 && !(objectExists s.objects par)) = false := by
    rcases hPar with hp | hp <;> simp [hp]
  have hnf : ¬ st.freeSpace < sz := Nat.not_lt.mpr hFree
  simp [handleRequest, doSendObjectInfo, doSendObject, hOpen, hSt, hcond,
    hnf, respOnly, Request.opcode]

/-- Witness for C2: a second SendObjectInfo on `sPend` overwrites
`pend0` and the following SendObject commits the second object. -/
theorem c2_sendObjectInfo_overwrites_witness :
    (handleRequest envOK sPend
      (Request.SendObjectInfo 0x00010001 0 0x3004 5 "b.txt")).2.code =
      ResponseCode.OK ∧
    (handleRequest envOK sPend
      (Request.SendObjectInfo 0x00010001 0 0x3004 5 "b.txt")).1.pendingSend =
      some { handle := sPend.nextHandle, format := 0x3004,
             filePath := destPath stA "b.txt", fileSize := 5,
             storageID := 0x00010001, parent := 0 } ∧
    (handleRequest envOK
      (handleRequest envOK sPend
        (Request.SendObjectInfo 0x00010001 0 0x3004 5 "b.txt")).1
      (Request.SendObject [104, 101, 108, 108, 111])).2.code =
      ResponseCode.OK ∧
    (handleRequest envOK
      (handleRequest envOK sPend
        (Request.SendObjectInfo 0x00010001 0 0x3004 5 "b.txt")).1
      (Request.SendObject [104, 101, 108, 108, 111])).1.objects =
      sPend.objects ++
        [{ handle := sPend.nextHandle, storageID := 0x00010001, parent := 0,
           format := 0x3004, size := [104, 101, 108, 108, 111].length,
           path := destPath stA "b.txt",
           contents := [104, 101, 108, 108, 111] }] :=
  c2_sendObjectInfo_overwrites envOK sPend pend0 stA 0x00010001 0 0x3004 5
    "b.txt" [104, 101, 108, 108, 111] rfl rfl (by decide) (Or.inl rfl)
    (by decide)

/-- C6: after a successful SendObjectInfo (declaring a format) followed
by a successful SendObject, GetObjectInfo on the returned handle yields
an ObjectInfo whose size is the number of bytes SendObject wrote and
whose format is the one declared in SendObjectInfo. -/
theorem c6_send_roundtrip (env : Env) (s : State) (st : MtpStorage)
    (sid par fmt sz : Nat) (name : String) (data : List Nat)
    (hOpen : s.sessionOpen = true)
    (hSt : getStorage s sid = some st)
    (hPar : par = 0 ∨ objectExists s.objects par = true)
    (hFree : sz ≤ st.freeSpace)
    (hFresh : ∀ o ∈ s.objects, o.handle ≠ s.nextHandle) :
    (handleRequest env s (Request.SendObjectInfo sid par fmt sz name)).2.code =
      ResponseCode.OK ∧
    (handleRequest env s (Request.SendObjectInfo sid par fmt sz name)).2.params =
      [s.nextHandle] ∧
    (handleRequest env
      (handleRequest env s (Request.SendObjectInfo sid par fmt sz name)).1
      (Request.SendObject data)).2.code = ResponseCode.OK ∧
    (handleRequest env
      (handleRequest env
        (handleRequest env s (Request.SendObjectInfo sid par fmt sz name)).1
        (Request.SendObject data)).1
      (Request.GetObjectInfo s.nextHandle)).2.info =
      some { storageID := sid, parent := par, format := fmt,
             size := data.length } := by
  have hcond : (par != 0 && !(objectExists s.objects par)) = false := by
    rcases hPar with hp | hp <;> simp [hp]
  have hnf : ¬ st.freeSpace < sz := Nat.not_lt.mpr hFree
  have hnone : s.objects.find? (fun o => o.handle == s.nextHandle) = none := by
    rw [List.find?_eq_none]
    intro o ho
    simpa using hFresh o ho
  simp [handleRequest, doSendObjectInfo, doSendObject, doGetObjectInfo,
    findObj, hOpen, hSt, hcond, hnf, hnone, respOnly, Request.opcode]

/-- Witness for C6: the spec's section-8 scenario — SendObjectInfo for
a 5-byte text object, SendObject of "hello", then GetObjectInfo. -/
theorem c6_send_roundtrip_witness :
    (handleRequest envOK sOpen
      (Request.SendObjectInfo 0x00010001 0 0x3004 5 "hello.txt")).2.code =
      ResponseCode.OK ∧
    (handleRequest envOK sOpen
      (Request.SendObjectInfo 0x00010001 0 0x3004 5 "hello.txt")).2.params =
      [sOpen.nextHandle] ∧
    (handleRequest envOK
      (handleRequest envOK sOpen
        (Request.SendObjectInfo 0x00010001 0 0x3004 5 "hello.txt")).1
      (Request.SendObject [104, 101, 108, 108, 111])).2.code =
      ResponseCode.OK ∧
    (handleRequest envOK
      (handleRequest envOK
        (handleRequest envOK sOpen
          (Request.SendObjectInfo 0x00010001 0 0x3004 5 "hello.txt")).1
        (Request.SendObject [104, 101, 108, 108, 111])).1
      (Request.GetObjectInfo sOpen.nextHandle)).2.info =
      some { storageID := 0x00010001, parent := 0, format := 0x3004,
             size := [104, 101, 108, 108, 111].length } :=
  c6_send_roundtrip envOK sOpen stA 0x00010001 0 0x3004 5 "hello.txt"
    [104, 101, 108, 108, 111] rfl (by decide) (Or.inl rfl) (by decide)
    (by intro o ho; simp [sOpen] at ho)

/-- Filtering the survivors of a bulk delete for the targeted objects
yields exactly the targets whose removal failed. -/
theorem filter_not_or_filter {α} (l : List α) (T f : α → Bool) :
    (l.filter (fun o => !(T o) || f o)).filter T = (l.filter T).filter f := by
  rw [List.filter_filter, List.filter_filter]
  refine List.filter_congr ?_
  intro x _
  cases hT : T x <;> cases hf : f x <;> simp [hT, hf]

/-- C7: DeleteObject on an unknown (non-sentinel) handle answers
InvalidObjectHandle and changes nothing; DeleteObject on an existing
object one of whose proper descendants fails to unlink does not abort:
it still removes every target whose unlink succeeds and answers
PartialDeletion whose parameter is the number of targeted objects still
present afterwards. -/
theorem c7_deleteObject (env : Env) (s : State) (h : Nat)
    (hOpen : s.sessionOpen = true)
    (hSent : h ≠ allObjectsHandle) :
    (findObj s.objects h = none →
      (handleRequest env s (Request.DeleteObject h)).2.code =
        ResponseCode.InvalidObjectHandle ∧
      (handleRequest env s (Request.DeleteObject h)).1 = s) ∧
    (∀ c, c ∈ s.objects → inSubtree s.objects h c.handle = true →
      c.handle ≠ h → env.unlinkFails c.handle = true →
      objectExists s.objects h = true →
      (handleRequest env s (Request.DeleteObject h)).2.code =
        ResponseCode.PartialDeletion ∧
      (handleRequest env s (Request.DeleteObject h)).2.params =
        [((handleRequest env s (Request.DeleteObject h)).1.objects.filter
            (isTarget s.objects h)).length] ∧
      ∀ d, d ∈ s.objects → isTarget s.objects h d = true →
        env.unlinkFails d.handle = false →
        d ∉ (handleRequest env s (Request.DeleteObject h)).1.objects) := by
  have hred : handleRequest env s (Request.DeleteObject h) =
      doDeleteObject env s h := by
    simp [handleRequest, hOpen, Request.opcode]
  constructor
  · intro hNone
    have hex0 : objectExists s.objects h = false := by
      simp [objectExists, hNone]
    have hb : (h != allObjectsHandle && !(objectExists s.objects h)) = true := by
      simp [hex0, hSent]
    rw [hred]
    unfold doDeleteObject
    rw [if_pos hb]
    exact ⟨rfl, rfl⟩
  · intro c hc hsub hne hfail hex
    have hT : isTarget s.objects h c = true := by
      simp [isTarget, hsub]
    have hcf : c ∈ failedTargets env s.objects h :=
      List.mem_filter.mpr ⟨List.mem_filter.mpr ⟨hc, hT⟩, hfail⟩
    have hpos : (failedTargets env s.objects h).length ≠ 0 := by
      intro h0
      rw [List.length_eq_zero] at h0
      rw [h0] at hcf
      exact absurd hcf (List.not_mem_nil c)
    have hb : ¬ ((h != allObjectsHandle && !(objectExists s.objects h)) = true) := by
      simp [hex]
    have hres : doDeleteObject env s h =
        ({ s with objects := survivors env s.objects h },
         { code := ResponseCode.PartialDeletion,
           params := [(failedTargets env s.objects h).length],
           data := [], info := none }) := by
      unfold doDeleteObject
      rw [if_neg hb]
      rw [if_neg (by simp [hpos])]
    rw [hred, hres]
    refine ⟨rfl, ?_, ?_⟩
    · have hk := filter_not_or_filter s.objects (isTarget s.objects h)
        (fun o => env.unlinkFails o.handle)
      show [(failedTargets env s.objects h).length] =
        [((survivors env s.objects h).filter (isTarget s.objects h)).length]
      rw [survivors, failedTargets, deleteTargets, hk]
    · intro d hd hTd hfd hmem
      rw [survivors] at hmem
      have hpred := (List.mem_filter.mp hmem).2
      rw [hTd, hfd] at hpred
      simp at hpred

/-- Witness for C7: deleting missing handle 9 fails with
InvalidObjectHandle; deleting folder 1 while child 2's unlink fails
answers PartialDeletion counting the still-present targets, and the
successfully unlinked child 3 is gone. -/
theorem c7_deleteObject_witness :
    (handleRequest envFail2 sTree (Request.DeleteObject 9)).2.code =
      ResponseCode.InvalidObjectHandle ∧
    (handleRequest envFail2 sTree (Request.DeleteObject 1)).2.code =
      ResponseCode.PartialDeletion ∧
    (handleRequest envFail2 sTree (Request.DeleteObject 1)).2.params =
      [((handleRequest envFail2 sTree (Request.DeleteObject 1)).1.objects.filter
          (isTarget sTree.objects 1)).length] ∧
    childC ∉ (handleRequest envFail2 sTree (Request.DeleteObject 1)).1.objects := by
  have H := c7_deleteObject envFail2 sTree 1 rfl (by decide)
  have H9 := c7_deleteObject envFail2 sTree 9 rfl (by decide)
  have Hb := H.2 childB (by decide) (by decide) (by decide) (by decide)
    (by decide)
  exact ⟨(H9.1 (by decide)).1, Hb.1, Hb.2.1,
    Hb.2.2 childC (by decide) (by decide) (by decide)⟩

/-- Witness for C10: adding the same storage twice leaves two entries
with its ID in the registry. -/
theorem c10_addStorage_append_witness :
    (addStorage sOpen stA).storages = sOpen.storages ++ [stA] ∧
    (addStorage sOpen stA).sessionID = sOpen.sessionID ∧
    (addStorage sOpen stA).sessionOpen = sOpen.sessionOpen ∧
    (addStorage sOpen stA).objects = sOpen.objects ∧
    (addStorage sOpen stA).pendingSend = sOpen.pendingSend ∧
    2 ≤ ((addStorage (addStorage sOpen stA) stA).storages.filter
          (fun x => x.id == stA.id)).length :=
  c10_addStorage_append sOpen stA stA rfl

end MtpModel
